import Mathlib

/-!
Shallow embedding of the window-tiler core (src/src/App.tsx).

Screen-space coordinates are modelled as rationals (the source uses JS
numbers; every operation here divides by two or adds, which is exact).
JS truthiness matters in three guards of the source and is modelled
explicitly: `!win.parent` is true when `parent` is `null` or `0`,
`if (target)` is false when `target` is `undefined` or `0`, and
`!draggedWindowId.current` is true when the ref is `null` or `0`.
-/

namespace WindowTiler

/-- The four snap sides (`type SnapSide`). -/
inductive SnapSide where
  | left
  | right
  | top
  | bottom
deriving DecidableEq, Repr

/-- One panel (`interface WindowData`). -/
structure WindowData where
  id : Int
  color : String
  top : ℚ
  left : ℚ
  width : ℚ
  height : ℚ
  isSnapped : Bool
  parent : Option Int
deriving DecidableEq, Repr

/-- A CSS length as it appears in the indicator: a pixel number, or a
viewport-relative string such as `"50vw"` / `"100vh"`. -/
inductive CssLen where
  | px (v : ℚ)
  | vw (v : ℚ)
  | vh (v : ℚ)
deriving DecidableEq, Repr

/-- The live snap preview (`interface SnapIndicatorState`).
The source field `show` is a Lean keyword, so it is called `shown` here. -/
structure SnapIndicatorState where
  shown : Bool
  side : Option SnapSide
  target : Option Int
  top : CssLen
  left : CssLen
  width : CssLen
  height : CssLen
deriving DecidableEq, Repr

/-- A pointer position (`interface Position`). -/
structure Position where
  x : ℚ
  y : ℚ
deriving DecidableEq, Repr

/-- `const SNAP_THRESHOLD = 30`. -/
def SNAP_THRESHOLD : ℚ := 30

/-- `const EMPTY_INDICATOR`. -/
def EMPTY_INDICATOR : SnapIndicatorState :=
  { shown := false, side := none, target := none,
    top := .px 0, left := .px 0, width := .px 0, height := .px 0 }

/-- The whole mutable state of the `App` component: the panel list, the
published indicator, and the two drag-session refs. -/
structure AppState where
  windows : List WindowData
  snapIndicator : SnapIndicatorState
  draggedWindowId : Option Int
  dragStartPos : Option Position
deriving DecidableEq, Repr

/-- JS falsiness of `win.parent : number | null`: `null` or `0`. -/
def parentFalsy : Option Int → Bool
  | none => true
  | some n => n == 0

/-- JS truthiness of `target : number | undefined` in `if (target)`:
present and nonzero. -/
def targetTruthy : Option Int → Bool
  | none => false
  | some n => !(n == 0)

/-- `unsnapWindow` (App.tsx lines 156-184), as the pure list transformer
inside its `setWindows` updater. -/
def unsnapWindow (windowId : Int) (curr : List WindowData) : List WindowData :=
  match curr.find? (fun w => w.id == windowId) with
  | none => curr
  | some win =>
    if !win.isSnapped || parentFalsy win.parent then curr
    else
      match win.parent with
      | none => curr
      | some pid =>
        match curr.find? (fun w => w.id == pid) with
        | none =>
          curr.map (fun w =>
            if w.id == windowId then { w with isSnapped := false, parent := none } else w)
        | some sibling =>
          let updatedSibling : WindowData :=
            { sibling with
              width := sibling.width + win.width,
              height := sibling.height + win.height,
              isSnapped := false,
              parent := none }
          curr.map (fun w =>
            if w.id == sibling.id then updatedSibling
            else if w.id == windowId then { w with isSnapped := false, parent := none }
            else w)

/-- `handleDragStart` (App.tsx lines 194-201): records the drag session
and immediately unsnaps the picked-up panel. -/
def handleDragStart (id : Int) (p : Position) (st : AppState) : AppState :=
  { st with
    draggedWindowId := some id,
    dragStartPos := some p,
    windows := unsnapWindow id st.windows }

/-- Pointer containment test of the drag loop (App.tsx lines 227-231):
strict inequalities on all four sides. -/
def containsPt (w : WindowData) (cx cy : ℚ) : Bool :=
  cx > w.left && cx < w.left + w.width && cy > w.top && cy < w.top + w.height

/-- The edge tests against one containing panel (App.tsx lines 234-274):
an `else if` chain left, right, top, bottom; if none matches the
indicator stays empty (the loop `break`s either way). -/
def edgeIndicator (w : WindowData) (cx cy : ℚ) : SnapIndicatorState :=
  if cx < w.left + SNAP_THRESHOLD then
    { shown := true, side := some .left, target := some w.id,
      top := .px w.top, left := .px w.left,
      width := .px (w.width / 2), height := .px w.height }
  else if cx > w.left + w.width - SNAP_THRESHOLD then
    { shown := true, side := some .right, target := some w.id,
      top := .px w.top, left := .px (w.left + w.width / 2),
      width := .px (w.width / 2), height := .px w.height }
  else if cy < w.top + SNAP_THRESHOLD then
    { shown := true, side := some .top, target := some w.id,
      top := .px w.top, left := .px w.left,
      width := .px w.width, height := .px (w.height / 2) }
  else if cy > w.top + w.height - SNAP_THRESHOLD then
    { shown := true, side := some .bottom, target := some w.id,
      top := .px (w.top + w.height / 2), left := .px w.left,
      width := .px w.width, height := .px (w.height / 2) }
  else EMPTY_INDICATOR

/-- The panel scan of `handleDrag` (App.tsx lines 225-276): skip the
dragged panel, stop at the first panel containing the pointer and run
the edge tests on it; empty if no panel contains the pointer. -/
def scanIndicator (id : Int) (cx cy : ℚ) : List WindowData → SnapIndicatorState
  | [] => EMPTY_INDICATOR
  | w :: rest =>
    if w.id == id then scanIndicator id cx cy rest
    else if containsPt w cx cy then edgeIndicator w cx cy
    else scanIndicator id cx cy rest

/-- The screen-edge fallback of `handleDrag` (App.tsx lines 278-316),
run only when the scan produced no indicator. -/
def screenIndicator (cx cy innerW innerH : ℚ) : SnapIndicatorState :=
  if cx < SNAP_THRESHOLD then
    { shown := true, side := some .left, target := none,
      top := .px 0, left := .px 0, width := .vw 50, height := .vh 100 }
  else if cx > innerW - SNAP_THRESHOLD then
    { shown := true, side := some .right, target := none,
      top := .px 0, left := .vw 50, width := .vw 50, height := .vh 100 }
  else if cy < SNAP_THRESHOLD then
    { shown := true, side := some .top, target := none,
      top := .px 0, left := .px 0, width := .vw 100, height := .vh 50 }
  else if cy > innerH - SNAP_THRESHOLD then
    { shown := true, side := some .bottom, target := none,
      top := .vh 50, left := .px 0, width := .vw 100, height := .vh 50 }
  else EMPTY_INDICATOR

/-- The full snap-decision computation of one `handleDrag` call: the
panel scan, then the screen-edge fallback when the scan is empty. -/
def resolveIndicator (id : Int) (cx cy : ℚ) (ws : List WindowData)
    (innerW innerH : ℚ) : SnapIndicatorState :=
  let ind := scanIndicator id cx cy ws
  if ind.shown then ind else screenIndicator cx cy innerW innerH

/-- The panel the scan of `handleDrag` stops at: the first panel in
layout-store order that is not the dragged one and contains the pointer
(the loop body `break`s exactly there). -/
def firstContaining (id : Int) (cx cy : ℚ) : List WindowData → Option WindowData
  | [] => none
  | w :: rest =>
    if w.id == id then firstContaining id cx cy rest
    else if containsPt w cx cy then some w
    else firstContaining id cx cy rest

/-- `handleDrag` (App.tsx lines 203-321) for one delivered drag event:
guard (`draggedWindowId.current !== id || !dragStartPos.current ||
e.clientX === 0`), relative translation of the dragged panel, pointer
bookkeeping, and publication of a fresh indicator. The scan reads the
`windows` closure value, i.e. the list before this event's translation. -/
def handleDrag (innerW innerH : ℚ) (id : Int) (p : Position) (st : AppState) : AppState :=
  if st.draggedWindowId ≠ some id then st
  else
    match st.dragStartPos with
    | none => st
    | some pos =>
      if p.x = 0 then st
      else
        let dx := p.x - pos.x
        let dy := p.y - pos.y
        let newWindows := st.windows.map (fun w =>
          if w.id == id then { w with left := w.left + dx, top := w.top + dy } else w)
        { st with
          windows := newWindows,
          dragStartPos := some p,
          snapIndicator := resolveIndicator id p.x p.y st.windows innerW innerH }

/-- The per-side updates of a target split in `handleDrop`
(App.tsx lines 341-390): the record `updates` keyed by panel id, with
the dragged entry written last (so it wins when the keys coincide). -/
def splitUpdates (s : SnapSide) (tid draggedId : Int) (t dragged : WindowData)
    (k : Int) : Option WindowData :=
  let halfW := t.width / 2
  let halfH := t.height / 2
  let targetUpd : WindowData :=
    match s with
    | .left => { t with left := t.left + halfW, width := halfW }
    | .right => { t with width := halfW }
    | .top => { t with top := t.top + halfH, height := halfH }
    | .bottom => { t with height := halfH }
  let draggedUpd : WindowData :=
    match s with
    | .left =>
      { dragged with
          isSnapped := true
          parent := some tid
          top := t.top
          left := t.left
          width := halfW
          height := t.height }
    | .right =>
      { dragged with
          isSnapped := true
          parent := some tid
          top := t.top
          left := t.left + halfW
          width := halfW
          height := t.height }
    | .top =>
      { dragged with
          isSnapped := true
          parent := some tid
          top := t.top
          left := t.left
          width := t.width
          height := halfH }
    | .bottom =>
      { dragged with
          isSnapped := true
          parent := some tid
          top := t.top + halfH
          left := t.left
          width := t.width
          height := halfH }
  if k = draggedId then some draggedUpd
  else if k = tid then some targetUpd
  else none

/-- The screen-half geometries of `handleDrop` (App.tsx lines 394-401). -/
def snapMap (s : SnapSide) (fullW fullH : ℚ) (w : WindowData) : WindowData :=
  match s with
  | .left => { w with top := 0, left := 0, width := fullW / 2, height := fullH }
  | .right => { w with top := 0, left := fullW / 2, width := fullW / 2, height := fullH }
  | .top => { w with top := 0, left := 0, width := fullW, height := fullH / 2 }
  | .bottom => { w with top := fullH / 2, left := 0, width := fullW, height := fullH / 2 }

/-- The `setWindows` updater of `handleDrop` (App.tsx lines 329-408). -/
def dropWindows (draggedId : Int) (side : Option SnapSide) (target : Option Int)
    (fullW fullH : ℚ) (curr : List WindowData) : List WindowData :=
  match curr.find? (fun w => w.id == draggedId) with
  | none => curr
  | some dragged =>
    match side with
    | none => curr
    | some s =>
      if targetTruthy target then
        match target with
        | none => curr
        | some tid =>
          match curr.find? (fun w => w.id == tid) with
          | none => curr
          | some t =>
            curr.map (fun w => (splitUpdates s tid draggedId t dragged w.id).getD w)
      else
        curr.map (fun w =>
          if w.id == draggedId then
            snapMap s fullW fullH { w with isSnapped := true, parent := none }
          else w)

/-- `handleDrop` (App.tsx lines 323-413): the early return
`if (!snapIndicator.show || !draggedWindowId.current) return;` clears
nothing; otherwise the list updater runs and the drag session and
indicator are cleared. -/
def handleDrop (fullW fullH : ℚ) (st : AppState) : AppState :=
  if !st.snapIndicator.shown || !targetTruthy st.draggedWindowId then st
  else
    match st.draggedWindowId with
    | none => st
    | some draggedId =>
      { windows :=
          dropWindows draggedId st.snapIndicator.side st.snapIndicator.target
            fullW fullH st.windows
        snapIndicator := EMPTY_INDICATOR,
        draggedWindowId := none,
        dragStartPos := none }

/-- The half-open rectangle of screen points a panel covers, used to
state the tiling properties. -/
def winPts (w : WindowData) : Set (ℚ × ℚ) :=
  { p | w.left ≤ p.1 ∧ p.1 < w.left + w.width ∧ w.top ≤ p.2 ∧ p.2 < w.top + w.height }

/-- A concrete mid-drag state: panel 1 dragged over panel 2 with an
active left-split decision on panel 2 (`100x60` at the origin). -/
def splitLeftState : AppState :=
  { windows := [⟨1, "a", 0, 0, 300, 200, false, none⟩,
                ⟨2, "b", 0, 0, 100, 60, false, none⟩],
    snapIndicator := ⟨true, some .left, some 2, .px 0, .px 0, .px 0, .px 0⟩,
    draggedWindowId := some 1,
    dragStartPos := some ⟨0, 0⟩ }

/-- A concrete mid-drag state: panel 1 dragged over panel 2 with an
active right-split decision on panel 2 (`100x50` at the origin). -/
def splitRightState : AppState :=
  { windows := [⟨1, "a", 0, 0, 300, 200, false, none⟩,
                ⟨2, "b", 0, 0, 100, 50, false, none⟩],
    snapIndicator := ⟨true, some .right, some 2, .px 0, .px 0, .px 0, .px 0⟩,
    draggedWindowId := some 1,
    dragStartPos := some ⟨0, 0⟩ }

/-- A concrete mid-drag state whose active decision targets id 99,
which no panel in the list has (the target was closed mid-drag). -/
def danglingTargetState : AppState :=
  { windows := [⟨1, "a", 0, 0, 300, 200, false, none⟩],
    snapIndicator := ⟨true, some .left, some 99, .px 0, .px 0, .px 0, .px 0⟩,
    draggedWindowId := some 1,
    dragStartPos := some ⟨0, 0⟩ }

/-- A concrete mid-drag state whose active decision carries target id 0:
`0` never refers to a panel, and `if (target)` treats it as falsy. -/
def zeroTargetState : AppState :=
  { windows := [⟨1, "a", 0, 0, 300, 200, false, none⟩],
    snapIndicator := ⟨true, some .left, some 0, .px 0, .px 0, .px 0, .px 0⟩,
    draggedWindowId := some 1,
    dragStartPos := some ⟨0, 0⟩ }

end WindowTiler

namespace WindowTiler

/-! ### Helper lemmas -/

lemma find_id_eq {l : List WindowData} {d : Int} {w : WindowData}
    (h : l.find? (fun x => x.id == d) = some w) : w.id = d := by
  have := List.find?_some h
  simpa using this

lemma find_map_idpres (f : WindowData → WindowData) (hf : ∀ w, (f w).id = w.id)
    (d : Int) : ∀ l : List WindowData,
    (l.map f).find? (fun x => x.id == d) = (l.find? (fun x => x.id == d)).map f
  | [] => rfl
  | w :: l => by
    by_cases h : w.id = d
    · have h1 : ((f w).id == d) = true := by simp [hf, h]
      have h2 : (w.id == d) = true := by simp [h]
      simp [List.find?, h1, h2]
    · have h1 : ((f w).id == d) = false := by simp [hf, h]
      have h2 : (w.id == d) = false := by simp [h]
      simp [List.find?, h1, h2, find_map_idpres f hf d l]

lemma map_ids_idpres (f : WindowData → WindowData) (hf : ∀ w, (f w).id = w.id)
    (l : List WindowData) : (l.map f).map WindowData.id = l.map WindowData.id := by
  induction l with
  | nil => rfl
  | cons w l ih => simp [hf, ih]

lemma splitUpdates_id (s : SnapSide) (tid did : Int) (t dragged : WindowData)
    (hdid : dragged.id = did) (htid : t.id = tid) (w : WindowData) :
    ((splitUpdates s tid did t dragged w.id).getD w).id = w.id := by
  by_cases h1 : w.id = did
  · cases s <;> simp [splitUpdates, h1, hdid]
  · by_cases h2 : w.id = tid
    · have hne : ¬tid = did := fun hh => h1 (h2.trans hh)
      cases s <;> simp [splitUpdates, h1, h2, htid, hne]
    · simp [splitUpdates, h1, h2]

lemma unsnapWindow_ids (i : Int) (l : List WindowData) :
    (unsnapWindow i l).map WindowData.id = l.map WindowData.id := by
  unfold unsnapWindow
  cases hfind : l.find? (fun w => w.id == i) with
  | none => rfl
  | some win =>
    simp only []
    by_cases hg : (!win.isSnapped || parentFalsy win.parent) = true
    · rw [if_pos hg]
    · rw [if_neg hg]
      cases hp : win.parent with
      | none => rfl
      | some pid =>
        simp only []
        cases hsib : l.find? (fun w => w.id == pid) with
        | none =>
          refine map_ids_idpres _ (fun w => ?_) l
          by_cases h : w.id = i <;> simp [h]
        | some sibling =>
          refine map_ids_idpres _ (fun w => ?_) l
          by_cases h1 : w.id = sibling.id
          · simp [h1]
          · by_cases h2 : w.id = i
            · have h3 : ¬i = sibling.id := fun hh => h1 (h2.trans hh)
              simp [h1, h2, h3]
            · simp [h1, h2]

lemma dropWindows_ids (did : Int) (side : Option SnapSide) (target : Option Int)
    (fw fh : ℚ) (l : List WindowData) :
    (dropWindows did side target fw fh l).map WindowData.id = l.map WindowData.id := by
  unfold dropWindows
  cases hfd : l.find? (fun w => w.id == did) with
  | none => rfl
  | some dragged =>
    simp only []
    cases side with
    | none => rfl
    | some s =>
      simp only []
      by_cases ht : targetTruthy target = true
      · rw [if_pos ht]
        cases target with
        | none => simp [targetTruthy] at ht
        | some tid =>
          simp only []
          cases hft : l.find? (fun w => w.id == tid) with
          | none => rfl
          | some t =>
            exact map_ids_idpres _
              (splitUpdates_id s tid did t dragged (find_id_eq hfd) (find_id_eq hft)) l
      · rw [if_neg ht]
        refine map_ids_idpres _ (fun w => ?_) l
        by_cases h : w.id = did
        · cases s <;> simp [snapMap, h]
        · simp [h]

lemma handleDrag_ids (iw ih : ℚ) (i : Int) (p : Position) (st : AppState) :
    (handleDrag iw ih i p st).windows.map WindowData.id = st.windows.map WindowData.id := by
  unfold handleDrag
  by_cases hd : st.draggedWindowId ≠ some i
  · rw [if_pos hd]
  · rw [if_neg hd]
    cases hp : st.dragStartPos with
    | none => rfl
    | some pos =>
      simp only []
      by_cases hx : p.x = 0
      · rw [if_pos hx]
      · rw [if_neg hx]
        refine map_ids_idpres _ (fun w => ?_) st.windows
        by_cases h : w.id = i <;> simp [h]

lemma handleDrop_ids (iw ih : ℚ) (st : AppState) :
    (handleDrop iw ih st).windows.map WindowData.id = st.windows.map WindowData.id := by
  unfold handleDrop
  by_cases hg : (!st.snapIndicator.shown || !targetTruthy st.draggedWindowId) = true
  · rw [if_pos hg]
  · rw [if_neg hg]
    cases hd : st.draggedWindowId with
    | none => rfl
    | some did =>
      exact dropWindows_ids did st.snapIndicator.side st.snapIndicator.target iw ih st.windows

/-! ### Claim theorems -/

/-- C10: `unsnap`, `beginDrag`, `dragMove` and `drop` preserve the
multiset of panel ids and their order: the id sequence of the panel list
is unchanged by each of these operations (no panel added, removed, or
reordered). -/
theorem c10_list_shape (i : Int) (p : Position) (st : AppState) (iw ih : ℚ)
    (l : List WindowData) :
    (unsnapWindow i l).map WindowData.id = l.map WindowData.id ∧
    (handleDragStart i p st).windows.map WindowData.id = st.windows.map WindowData.id ∧
    (handleDrag iw ih i p st).windows.map WindowData.id = st.windows.map WindowData.id ∧
    (handleDrop iw ih st).windows.map WindowData.id = st.windows.map WindowData.id :=
  ⟨unsnapWindow_ids i l, unsnapWindow_ids i st.windows,
   handleDrag_ids iw ih i p st, handleDrop_ids iw ih st⟩

/-- C3 counterexample: for a full-screen-snapped panel (`isSnapped` true,
`parent` null) the guard of `unsnapWindow` returns the list unchanged, so
the panel keeps `isSnapped = true` — the claim requires it to be cleared
to `false`. -/
theorem c3_counterexample :
    ((unsnapWindow 1 [⟨1, "w", 0, 0, 600, 800, true, none⟩]).find?
        (fun w => w.id == 1)).map (fun w => (w.isSnapped, w.parent)) =
      some (true, none) := by decide

/-- C3 (amended): for a panel that is not snapped or has no parent
(including the full-screen-snap case), `unsnapWindow` is a complete
no-op — it leaves the whole panel list unchanged, so the panel keeps
whatever flags it had rather than having them cleared — and
`handleDragStart` likewise leaves every panel unchanged while recording
the drag session. -/
theorem c3_unsnap_noop (i : Int) (p : Position) (st : AppState) (win : WindowData)
    (hfind : st.windows.find? (fun w => w.id == i) = some win)
    (hcase : win.isSnapped = false ∨ win.parent = none) :
    unsnapWindow i st.windows = st.windows ∧
    (handleDragStart i p st).windows = st.windows ∧
    (handleDragStart i p st).draggedWindowId = some i ∧
    (handleDragStart i p st).dragStartPos = some p := by
  have hnoop : unsnapWindow i st.windows = st.windows := by
    unfold unsnapWindow
    rw [hfind]
    rcases hcase with h | h
    · simp [h]
    · simp [h, parentFalsy]
  exact ⟨hnoop, hnoop, rfl, rfl⟩

/-- C3 witness: a concrete floating panel, on which `unsnapWindow` and
`handleDragStart` leave the list unchanged. -/
theorem c3_unsnap_noop_witness :
    (([⟨1, "w", 0, 0, 300, 200, false, none⟩] : List WindowData).find?
        (fun w => w.id == 1) = some ⟨1, "w", 0, 0, 300, 200, false, none⟩) ∧
    ((⟨1, "w", 0, 0, 300, 200, false, none⟩ : WindowData).isSnapped = false ∨
     (⟨1, "w", 0, 0, 300, 200, false, none⟩ : WindowData).parent = none) ∧
    unsnapWindow 1 [⟨1, "w", 0, 0, 300, 200, false, none⟩] =
      [⟨1, "w", 0, 0, 300, 200, false, none⟩] :=
  ⟨by decide, Or.inl rfl,
   (c3_unsnap_noop 1 ⟨4, 5⟩
      ⟨[⟨1, "w", 0, 0, 300, 200, false, none⟩], EMPTY_INDICATOR, none, none⟩
      ⟨1, "w", 0, 0, 300, 200, false, none⟩ (by decide) (Or.inl rfl)).1⟩

/-- C4 counterexample: with no active decision but a recorded dragged
panel, `handleDrop` early-returns without clearing the drag state — the
recorded dragged id survives, contradicting the claim that drop clears
it. -/
theorem c4_counterexample :
    (handleDrop 1200 800
        ⟨[], EMPTY_INDICATOR, some 1, some ⟨3, 4⟩⟩).draggedWindowId = some 1 := by
  decide

/-- C4 (amended): when no decision is active or no panel is being
dragged, `handleDrop` is a complete no-op: the panel list, the drag
state (dragged id and last pointer position), and the snap preview are
all left exactly as they were — nothing is cleared. -/
theorem c4_drop_noop (iw ih : ℚ) (st : AppState)
    (h : st.snapIndicator.shown = false ∨ st.draggedWindowId = none) :
    handleDrop iw ih st = st := by
  unfold handleDrop
  rcases h with h | h
  · simp [h]
  · simp [h, targetTruthy]

/-- C4 witness: a concrete state with an inactive decision, on which
`handleDrop` changes nothing. -/
theorem c4_drop_noop_witness :
    ((⟨[], EMPTY_INDICATOR, some 1, some ⟨3, 4⟩⟩ :
        AppState).snapIndicator.shown = false ∨
     (⟨[], EMPTY_INDICATOR, some 1, some ⟨3, 4⟩⟩ :
        AppState).draggedWindowId = none) ∧
    handleDrop 1200 800 (⟨[], EMPTY_INDICATOR, some 1, some ⟨3, 4⟩⟩ : AppState) =
      (⟨[], EMPTY_INDICATOR, some 1, some ⟨3, 4⟩⟩ : AppState) :=
  ⟨Or.inl (by decide), c4_drop_noop 1200 800 _ (Or.inl (by decide))⟩

/-- C8 counterexample: a drag event at pointer `(100, 0)` — y-coordinate
equal to the sentinel `0` — is *not* ignored: the guard only tests
`e.clientX === 0`, so the dragged panel's geometry moves (its left edge
jumps from 0 to 95 here), contradicting the claim that an event with
x *or* y equal to 0 leaves geometry unchanged. -/
theorem c8_counterexample :
    ((handleDrag 1200 800 1 ⟨100, 0⟩
        ⟨[⟨1, "a", 0, 0, 300, 200, false, none⟩], EMPTY_INDICATOR,
          some 1, some ⟨5, 5⟩⟩).windows.map (fun w => w.left)) = [95] := by
  norm_num [handleDrag, resolveIndicator, scanIndicator, containsPt,
    edgeIndicator, screenIndicator, EMPTY_INDICATOR, SNAP_THRESHOLD]

/-- C8 (amended): only the x-coordinate is treated as the sentinel: for
every drag event whose pointer x-coordinate is `0`, `handleDrag` returns
the state unchanged — no geometry change, no pointer-position update,
and no new snap decision; an event with y = 0 but x ≠ 0 is processed
normally. -/
theorem c8_sentinel_x (iw ih : ℚ) (i : Int) (p : Position) (st : AppState)
    (h : p.x = 0) :
    handleDrag iw ih i p st = st := by
  unfold handleDrag
  by_cases hd : st.draggedWindowId ≠ some i
  · simp [hd]
  · cases hp : st.dragStartPos with
    | none => simp [hd]
    | some pos => simp [hd, h]

/-- C8 witness: a concrete event at pointer `(0, 50)` leaves a concrete
mid-drag state untouched. -/
theorem c8_sentinel_x_witness :
    (Position.x ⟨0, 50⟩ = 0) ∧
    handleDrag 1200 800 1 ⟨0, 50⟩
        (⟨[⟨1, "a", 0, 0, 300, 200, false, none⟩], EMPTY_INDICATOR,
          some 1, some ⟨5, 5⟩⟩ : AppState) =
      (⟨[⟨1, "a", 0, 0, 300, 200, false, none⟩], EMPTY_INDICATOR,
        some 1, some ⟨5, 5⟩⟩ : AppState) :=
  ⟨by decide, c8_sentinel_x 1200 800 1 ⟨0, 50⟩ _ (by decide)⟩

end WindowTiler

namespace WindowTiler

lemma scanIndicator_eq_firstContaining (id : Int) (cx cy : ℚ) :
    ∀ l : List WindowData, scanIndicator id cx cy l =
      (firstContaining id cx cy l).elim EMPTY_INDICATOR (fun w => edgeIndicator w cx cy)
  | [] => rfl
  | w :: rest => by
    by_cases h1 : (w.id == id) = true
    · simp [scanIndicator, firstContaining, h1,
        scanIndicator_eq_firstContaining id cx cy rest]
    · by_cases h2 : containsPt w cx cy = true
      · simp [scanIndicator, firstContaining, h1, h2]
      · simp [scanIndicator, firstContaining, h1, h2,
          scanIndicator_eq_firstContaining id cx cy rest]

lemma scanIndicator_empty (id : Int) (cx cy : ℚ) :
    ∀ l : List WindowData, (∀ w ∈ l, w.id ≠ id → containsPt w cx cy = false) →
      scanIndicator id cx cy l = EMPTY_INDICATOR
  | [], _ => rfl
  | w :: rest, h => by
    have hrest : ∀ x ∈ rest, x.id ≠ id → containsPt x cx cy = false :=
      fun x hx hne => h x (List.mem_cons_of_mem _ hx) hne
    by_cases h1 : (w.id == id) = true
    · simp [scanIndicator, h1, scanIndicator_empty id cx cy rest hrest]
    · have hne : w.id ≠ id := by simpa using h1
      have hc : containsPt w cx cy = false := h w (List.mem_cons_self w rest) hne
      simp [scanIndicator, h1, hc, scanIndicator_empty id cx cy rest hrest]

lemma scanIndicator_of_first {id : Int} {cx cy : ℚ} {l : List WindowData}
    {w : WindowData} (hfc : firstContaining id cx cy l = some w) :
    scanIndicator id cx cy l = edgeIndicator w cx cy := by
  rw [scanIndicator_eq_firstContaining, hfc]
  rfl

/-- C5 counterexample: with the dragged panel 1 far away, panel 2
(`top 100, left -100, 300x300`) contains the pointer `(25, 200)` but the
pointer is beyond the 30px threshold from all four of its edges, so the
scan yields nothing — and the screen-edge fallback then fires
(`25 < 30`), producing an active decision with no target even though a
non-dragged panel contains the pointer. -/
theorem c5_counterexample :
    containsPt ⟨2, "b", 100, -100, 300, 300, false, none⟩ 25 200 = true ∧
    (⟨2, "b", 100, -100, 300, 300, false, none⟩ : WindowData).id ≠ 1 ∧
    (resolveIndicator 1 25 200
        [⟨1, "a", 1000, 1000, 10, 10, false, none⟩,
         ⟨2, "b", 100, -100, 300, 300, false, none⟩] 1200 800).shown = true ∧
    (resolveIndicator 1 25 200
        [⟨1, "a", 1000, 1000, 10, 10, false, none⟩,
         ⟨2, "b", 100, -100, 300, 300, false, none⟩] 1200 800).target = none := by
  refine ⟨?_, by decide, ?_, ?_⟩ <;>
    norm_num [resolveIndicator, scanIndicator, containsPt, edgeIndicator,
      screenIndicator, EMPTY_INDICATOR, SNAP_THRESHOLD]

/-- C5 (amended): a screen-edge decision (active with no target) is
produced only when the panel scan matched no edge: if the resolver's
output is active with no target and some non-dragged panel contains the
pointer, then the first such panel has the pointer strictly beyond
`SNAP_THRESHOLD` from all four of its edges (so containment alone does
not suppress the screen-edge test — only an edge match does). -/
theorem c5_screen_edge_gating (id : Int) (cx cy iw ih : ℚ) (ws : List WindowData)
    (w : WindowData)
    (hshown : (resolveIndicator id cx cy ws iw ih).shown = true)
    (hnt : (resolveIndicator id cx cy ws iw ih).target = none)
    (hfc : firstContaining id cx cy ws = some w) :
    ¬cx < w.left + SNAP_THRESHOLD ∧ ¬cx > w.left + w.width - SNAP_THRESHOLD ∧
    ¬cy < w.top + SNAP_THRESHOLD ∧ ¬cy > w.top + w.height - SNAP_THRESHOLD := by
  have hscan := scanIndicator_of_first hfc
  by_cases c1 : cx < w.left + SNAP_THRESHOLD
  · exfalso
    unfold resolveIndicator at hnt
    rw [hscan] at hnt
    unfold edgeIndicator at hnt
    rw [if_pos c1] at hnt
    simp at hnt
  · by_cases c2 : cx > w.left + w.width - SNAP_THRESHOLD
    · exfalso
      unfold resolveIndicator at hnt
      rw [hscan] at hnt
      unfold edgeIndicator at hnt
      rw [if_neg c1, if_pos c2] at hnt
      simp at hnt
    · by_cases c3 : cy < w.top + SNAP_THRESHOLD
      · exfalso
        unfold resolveIndicator at hnt
        rw [hscan] at hnt
        unfold edgeIndicator at hnt
        rw [if_neg c1, if_neg c2, if_pos c3] at hnt
        simp at hnt
      · by_cases c4 : cy > w.top + w.height - SNAP_THRESHOLD
        · exfalso
          unfold resolveIndicator at hnt
          rw [hscan] at hnt
          unfold edgeIndicator at hnt
          rw [if_neg c1, if_neg c2, if_neg c3, if_pos c4] at hnt
          simp at hnt
        · exact ⟨c1, c2, c3, c4⟩

/-- C5 witness: the counterexample input, on which the amended statement
yields that panel 2's four edge tests all failed. -/
theorem c5_screen_edge_gating_witness :
    ((resolveIndicator 1 25 200
        [⟨1, "a", 1000, 1000, 10, 10, false, none⟩,
         ⟨2, "b", 100, -100, 300, 300, false, none⟩] 1200 800).shown = true) ∧
    ((resolveIndicator 1 25 200
        [⟨1, "a", 1000, 1000, 10, 10, false, none⟩,
         ⟨2, "b", 100, -100, 300, 300, false, none⟩] 1200 800).target = none) ∧
    (firstContaining 1 25 200
        [⟨1, "a", 1000, 1000, 10, 10, false, none⟩,
         ⟨2, "b", 100, -100, 300, 300, false, none⟩] =
      some ⟨2, "b", 100, -100, 300, 300, false, none⟩) ∧
    (¬(25 : ℚ) < (⟨2, "b", 100, -100, 300, 300, false, none⟩ : WindowData).left +
        SNAP_THRESHOLD) :=
  ⟨by norm_num [resolveIndicator, scanIndicator, containsPt, edgeIndicator,
      screenIndicator, EMPTY_INDICATOR, SNAP_THRESHOLD],
   by norm_num [resolveIndicator, scanIndicator, containsPt, edgeIndicator,
      screenIndicator, EMPTY_INDICATOR, SNAP_THRESHOLD],
   by norm_num [firstContaining, containsPt, SNAP_THRESHOLD],
   (c5_screen_edge_gating 1 25 200 1200 800
      [⟨1, "a", 1000, 1000, 10, 10, false, none⟩,
       ⟨2, "b", 100, -100, 300, 300, false, none⟩]
      ⟨2, "b", 100, -100, 300, 300, false, none⟩
      (by norm_num [resolveIndicator, scanIndicator, containsPt, edgeIndicator,
        screenIndicator, EMPTY_INDICATOR, SNAP_THRESHOLD])
      (by norm_num [resolveIndicator, scanIndicator, containsPt, edgeIndicator,
        screenIndicator, EMPTY_INDICATOR, SNAP_THRESHOLD])
      (by norm_num [firstContaining, containsPt, SNAP_THRESHOLD])).1⟩

end WindowTiler

namespace WindowTiler

/-- C6: edge precedence. If the scan stops at panel `w`, the matched
side follows the `else if` order left, right, top, bottom: nearness to
the left edge wins outright; right wins only if left missed; top only if
left and right missed; bottom only if the other three missed. In every
case the decision targets `w`. -/
theorem c6_edge_precedence (id : Int) (cx cy iw ih : ℚ) (ws : List WindowData)
    (w : WindowData) (hfc : firstContaining id cx cy ws = some w) :
    (cx < w.left + SNAP_THRESHOLD →
      (resolveIndicator id cx cy ws iw ih).side = some SnapSide.left ∧
      (resolveIndicator id cx cy ws iw ih).target = some w.id) ∧
    (¬cx < w.left + SNAP_THRESHOLD → cx > w.left + w.width - SNAP_THRESHOLD →
      (resolveIndicator id cx cy ws iw ih).side = some SnapSide.right ∧
      (resolveIndicator id cx cy ws iw ih).target = some w.id) ∧
    (¬cx < w.left + SNAP_THRESHOLD → ¬cx > w.left + w.width - SNAP_THRESHOLD →
      cy < w.top + SNAP_THRESHOLD →
      (resolveIndicator id cx cy ws iw ih).side = some SnapSide.top ∧
      (resolveIndicator id cx cy ws iw ih).target = some w.id) ∧
    (¬cx < w.left + SNAP_THRESHOLD → ¬cx > w.left + w.width - SNAP_THRESHOLD →
      ¬cy < w.top + SNAP_THRESHOLD → cy > w.top + w.height - SNAP_THRESHOLD →
      (resolveIndicator id cx cy ws iw ih).side = some SnapSide.bottom ∧
      (resolveIndicator id cx cy ws iw ih).target = some w.id) := by
  have hscan := scanIndicator_of_first hfc
  refine ⟨fun c1 => ?_, fun c1 c2 => ?_, fun c1 c2 c3 => ?_, fun c1 c2 c3 c4 => ?_⟩
  · simp only [resolveIndicator]
    rw [hscan]
    unfold edgeIndicator
    rw [if_pos c1]
    exact ⟨rfl, rfl⟩
  · simp only [resolveIndicator]
    rw [hscan]
    unfold edgeIndicator
    rw [if_neg c1, if_pos c2]
    exact ⟨rfl, rfl⟩
  · simp only [resolveIndicator]
    rw [hscan]
    unfold edgeIndicator
    rw [if_neg c1, if_neg c2, if_pos c3]
    exact ⟨rfl, rfl⟩
  · simp only [resolveIndicator]
    rw [hscan]
    unfold edgeIndicator
    rw [if_neg c1, if_neg c2, if_neg c3, if_pos c4]
    exact ⟨rfl, rfl⟩

/-- C6 witness: panel `{top 0, left 0, 300x200}` and pointer `(10, 10)`,
within threshold of both the left and the top edge; the resolver selects
`left`, targeting that panel. -/
theorem c6_edge_precedence_witness :
    (firstContaining 1 10 10 [⟨2, "b", 0, 0, 300, 200, false, none⟩] =
      some ⟨2, "b", 0, 0, 300, 200, false, none⟩) ∧
    ((10 : ℚ) < (⟨2, "b", 0, 0, 300, 200, false, none⟩ : WindowData).left +
      SNAP_THRESHOLD) ∧
    ((10 : ℚ) < (⟨2, "b", 0, 0, 300, 200, false, none⟩ : WindowData).top +
      SNAP_THRESHOLD) ∧
    ((resolveIndicator 1 10 10 [⟨2, "b", 0, 0, 300, 200, false, none⟩]
        1200 800).side = some SnapSide.left ∧
     (resolveIndicator 1 10 10 [⟨2, "b", 0, 0, 300, 200, false, none⟩]
        1200 800).target = some (2 : Int)) :=
  ⟨by norm_num [firstContaining, containsPt, SNAP_THRESHOLD],
   by norm_num [SNAP_THRESHOLD],
   by norm_num [SNAP_THRESHOLD],
   (c6_edge_precedence 1 10 10 1200 800 [⟨2, "b", 0, 0, 300, 200, false, none⟩]
      ⟨2, "b", 0, 0, 300, 200, false, none⟩
      (by norm_num [firstContaining, containsPt, SNAP_THRESHOLD])).1
     (by norm_num [SNAP_THRESHOLD])⟩

/-- C7: full-screen snap. With pointer `(5, 400)` on a `1200x800`
viewport and no non-dragged panel containing the pointer, the resolver
yields an active decision with side `left` and no target; committing it
with `handleDrop` gives the dragged panel geometry
`{top 0, left 0, width 600, height 800}`, `isSnapped = true` and
`parent = none`. (`d ≠ 0` reflects the source's `!draggedWindowId.current`
truthiness test; real ids come from `Date.now()` and are never 0.) -/
theorem c7_full_screen_snap (d : Int) (ws : List WindowData) (st : AppState)
    (dragged : WindowData)
    (hnc : ∀ w ∈ ws, w.id ≠ d → containsPt w 5 400 = false)
    (hind : st.snapIndicator = resolveIndicator d 5 400 ws 1200 800)
    (hdrag : st.draggedWindowId = some d) (hd0 : d ≠ 0)
    (hfind : st.windows.find? (fun w => w.id == d) = some dragged) :
    (resolveIndicator d 5 400 ws 1200 800).shown = true ∧
    (resolveIndicator d 5 400 ws 1200 800).side = some SnapSide.left ∧
    (resolveIndicator d 5 400 ws 1200 800).target = none ∧
    (handleDrop 1200 800 st).windows.find? (fun w => w.id == d) =
      some { dragged with
              top := 0
              left := 0
              width := 600
              height := 800
              isSnapped := true
              parent := none } := by
  have hresolve : resolveIndicator d 5 400 ws 1200 800 =
      { shown := true, side := some .left, target := none,
        top := .px 0, left := .px 0, width := .vw 50, height := .vh 100 } := by
    simp only [resolveIndicator]
    rw [scanIndicator_empty d 5 400 ws hnc]
    norm_num [EMPTY_INDICATOR, screenIndicator, SNAP_THRESHOLD]
  have hst : st.snapIndicator =
      { shown := true, side := some .left, target := none,
        top := .px 0, left := .px 0, width := .vw 50, height := .vh 100 } :=
    hind.trans hresolve
  refine ⟨by rw [hresolve], by rw [hresolve], by rw [hresolve], ?_⟩
  unfold handleDrop
  rw [if_neg (by simp [hst, hdrag, targetTruthy, hd0])]
  rw [hdrag]
  simp only []
  show (dropWindows d st.snapIndicator.side st.snapIndicator.target
      1200 800 st.windows).find? (fun w => w.id == d) = _
  rw [hst]
  unfold dropWindows
  rw [hfind]
  simp only []
  rw [if_neg (by simp [targetTruthy])]
  have hf : ∀ w : WindowData,
      ((if (w.id == d) = true then
          snapMap SnapSide.left 1200 800 { w with isSnapped := true, parent := none }
        else w)).id = w.id := by
    intro w
    by_cases h : w.id = d <;> simp [snapMap, h]
  rw [find_map_idpres _ hf d st.windows, hfind]
  simp [find_id_eq hfind, snapMap]
  norm_num

end WindowTiler

namespace WindowTiler

lemma handleDrop_split_windows (iw ih : ℚ) (s : SnapSide) (tid did : Int)
    (st : AppState) (t dragged : WindowData)
    (hshow : st.snapIndicator.shown = true)
    (hside : st.snapIndicator.side = some s)
    (htarget : st.snapIndicator.target = some tid)
    (hdrag : st.draggedWindowId = some did)
    (hd0 : did ≠ 0) (ht0 : tid ≠ 0)
    (hfd : st.windows.find? (fun w => w.id == did) = some dragged)
    (hft : st.windows.find? (fun w => w.id == tid) = some t) :
    (handleDrop iw ih st).windows =
      st.windows.map (fun w => (splitUpdates s tid did t dragged w.id).getD w) := by
  unfold handleDrop
  rw [if_neg (by simp [hshow, hdrag, targetTruthy, hd0])]
  rw [hdrag]
  simp only []
  show dropWindows did st.snapIndicator.side st.snapIndicator.target iw ih st.windows = _
  rw [hside, htarget]
  unfold dropWindows
  rw [hfd]
  simp only []
  rw [if_pos (by simp [targetTruthy, ht0])]
  rw [hft]

lemma find_after_split_dragged {iw ih : ℚ} {s : SnapSide} {tid did : Int}
    {st : AppState} {t dragged : WindowData}
    (hwindows : (handleDrop iw ih st).windows =
      st.windows.map (fun w => (splitUpdates s tid did t dragged w.id).getD w))
    (hfd : st.windows.find? (fun w => w.id == did) = some dragged)
    (hdid : dragged.id = did) (htid : t.id = tid) :
    (handleDrop iw ih st).windows.find? (fun w => w.id == did) =
      some ((splitUpdates s tid did t dragged did).getD dragged) := by
  rw [hwindows, find_map_idpres _ (splitUpdates_id s tid did t dragged hdid htid) did
    st.windows, hfd]
  show some ((splitUpdates s tid did t dragged dragged.id).getD dragged) = _
  rw [hdid]

lemma find_after_split_target {iw ih : ℚ} {s : SnapSide} {tid did : Int}
    {st : AppState} {t dragged : WindowData}
    (hwindows : (handleDrop iw ih st).windows =
      st.windows.map (fun w => (splitUpdates s tid did t dragged w.id).getD w))
    (hft : st.windows.find? (fun w => w.id == tid) = some t)
    (hdid : dragged.id = did) (htid : t.id = tid) :
    (handleDrop iw ih st).windows.find? (fun w => w.id == tid) =
      some ((splitUpdates s tid did t dragged tid).getD t) := by
  rw [hwindows, find_map_idpres _ (splitUpdates_id s tid did t dragged hdid htid) tid
    st.windows, hft]
  show some ((splitUpdates s tid did t dragged t.id).getD t) = _
  rw [htid]

/-- Two panels that are the left and right halves of `P` tile `P`
exactly: their point sets are disjoint and their union is P's. -/
lemma winPts_split_h (A B P : WindowData)
    (hAl : A.left = P.left) (hAw : A.width = P.width / 2)
    (hBl : B.left = P.left + P.width / 2) (hBw : B.width = P.width / 2)
    (hAt : A.top = P.top) (hAh : A.height = P.height)
    (hBt : B.top = P.top) (hBh : B.height = P.height) :
    winPts A ∪ winPts B = winPts P ∧ winPts A ∩ winPts B = ∅ := by
  constructor
  · ext p
    simp only [winPts, Set.mem_union, Set.mem_setOf_eq,
      hAl, hAw, hBl, hBw, hAt, hAh, hBt, hBh]
    constructor
    · rintro (⟨h1, h2, h3, h4⟩ | ⟨h1, h2, h3, h4⟩) <;>
        exact ⟨by linarith, by linarith, by linarith, by linarith⟩
    · rintro ⟨h1, h2, h3, h4⟩
      by_cases hx : p.1 < P.left + P.width / 2
      · exact Or.inl ⟨h1, hx, h3, h4⟩
      · exact Or.inr ⟨not_lt.mp hx, by linarith, h3, h4⟩
  · rw [Set.eq_empty_iff_forall_not_mem]
    intro p hp
    simp only [winPts, Set.mem_inter_iff, Set.mem_setOf_eq,
      hAl, hAw, hBl, hBw, hAt, hAh, hBt, hBh] at hp
    obtain ⟨⟨_, h2, _, _⟩, ⟨h5, _, _, _⟩⟩ := hp
    linarith

/-- Two panels that are the top and bottom halves of `P` tile `P`
exactly. -/
lemma winPts_split_v (A B P : WindowData)
    (hAt : A.top = P.top) (hAh : A.height = P.height / 2)
    (hBt : B.top = P.top + P.height / 2) (hBh : B.height = P.height / 2)
    (hAl : A.left = P.left) (hAw : A.width = P.width)
    (hBl : B.left = P.left) (hBw : B.width = P.width) :
    winPts A ∪ winPts B = winPts P ∧ winPts A ∩ winPts B = ∅ := by
  constructor
  · ext p
    simp only [winPts, Set.mem_union, Set.mem_setOf_eq,
      hAl, hAw, hBl, hBw, hAt, hAh, hBt, hBh]
    constructor
    · rintro (⟨h1, h2, h3, h4⟩ | ⟨h1, h2, h3, h4⟩) <;>
        exact ⟨by linarith, by linarith, by linarith, by linarith⟩
    · rintro ⟨h1, h2, h3, h4⟩
      by_cases hy : p.2 < P.top + P.height / 2
      · exact Or.inl ⟨h1, h2, h3, hy⟩
      · exact Or.inr ⟨h1, h2, not_lt.mp hy, by linarith⟩
  · rw [Set.eq_empty_iff_forall_not_mem]
    intro p hp
    simp only [winPts, Set.mem_inter_iff, Set.mem_setOf_eq,
      hAl, hAw, hBl, hBw, hAt, hAh, hBt, hBh] at hp
    obtain ⟨⟨_, _, _, h4⟩, ⟨_, _, h7, _⟩⟩ := hp
    linarith

end WindowTiler

namespace WindowTiler

/-- C2: partition invariant. For a drop committed with an active
decision targeting an existing panel `t` (nonzero ids per the source's
truthiness guards, and a target distinct from the dragged panel, as the
resolver guarantees), the resulting dragged panel `D` and target `T`
satisfy the width identity (left/right) or height identity (top/bottom),
are edge-adjacent along the split axis, and their half-open point sets
tile `t`'s pre-split rectangle exactly: union equal, intersection empty. -/
theorem c2_partition (iw ih : ℚ) (s : SnapSide) (tid did : Int) (st : AppState)
    (t dragged : WindowData)
    (hshow : st.snapIndicator.shown = true)
    (hside : st.snapIndicator.side = some s)
    (htarget : st.snapIndicator.target = some tid)
    (hdrag : st.draggedWindowId = some did)
    (hd0 : did ≠ 0) (ht0 : tid ≠ 0) (hne : tid ≠ did)
    (hfd : st.windows.find? (fun w => w.id == did) = some dragged)
    (hft : st.windows.find? (fun w => w.id == tid) = some t) :
    ∃ D T : WindowData,
      (handleDrop iw ih st).windows.find? (fun w => w.id == did) = some D ∧
      (handleDrop iw ih st).windows.find? (fun w => w.id == tid) = some T ∧
      (match s with
       | SnapSide.left => D.width + T.width = t.width ∧ D.left + D.width = T.left ∧
           D.top = T.top ∧ D.height = T.height
       | SnapSide.right => D.width + T.width = t.width ∧ T.left + T.width = D.left ∧
           D.top = T.top ∧ D.height = T.height
       | SnapSide.top => D.height + T.height = t.height ∧ D.top + D.height = T.top ∧
           D.left = T.left ∧ D.width = T.width
       | SnapSide.bottom => D.height + T.height = t.height ∧ T.top + T.height = D.top ∧
           D.left = T.left ∧ D.width = T.width) ∧
      winPts D ∪ winPts T = winPts t ∧
      winPts D ∩ winPts T = ∅ := by
  have hdid := find_id_eq hfd
  have htid := find_id_eq hft
  have hwindows := handleDrop_split_windows iw ih s tid did st t dragged
    hshow hside htarget hdrag hd0 ht0 hfd hft
  have hfD := find_after_split_dragged hwindows hfd hdid htid
  have hfT := find_after_split_target hwindows hft hdid htid
  cases s with
  | left =>
    rw [show (splitUpdates SnapSide.left tid did t dragged did).getD dragged =
        { dragged with
            isSnapped := true
            parent := some tid
            top := t.top
            left := t.left
            width := t.width / 2
            height := t.height } from by simp [splitUpdates]] at hfD
    rw [show (splitUpdates SnapSide.left tid did t dragged tid).getD t =
        { t with left := t.left + t.width / 2, width := t.width / 2 } from by
      simp [splitUpdates, hne]] at hfT
    refine ⟨_, _, hfD, hfT, ⟨by ring, rfl, rfl, rfl⟩, ?_, ?_⟩
    · refine (winPts_split_h _ _ t ?_ ?_ ?_ ?_ ?_ ?_ ?_ ?_).1 <;> rfl
    · refine (winPts_split_h _ _ t ?_ ?_ ?_ ?_ ?_ ?_ ?_ ?_).2 <;> rfl
  | right =>
    rw [show (splitUpdates SnapSide.right tid did t dragged did).getD dragged =
        { dragged with
            isSnapped := true
            parent := some tid
            top := t.top
            left := t.left + t.width / 2
            width := t.width / 2
            height := t.height } from by simp [splitUpdates]] at hfD
    rw [show (splitUpdates SnapSide.right tid did t dragged tid).getD t =
        { t with width := t.width / 2 } from by simp [splitUpdates, hne]] at hfT
    refine ⟨_, _, hfD, hfT, ⟨by ring, rfl, rfl, rfl⟩, ?_, ?_⟩
    · rw [Set.union_comm]
      refine (winPts_split_h _ _ t ?_ ?_ ?_ ?_ ?_ ?_ ?_ ?_).1 <;> rfl
    · rw [Set.inter_comm]
      refine (winPts_split_h _ _ t ?_ ?_ ?_ ?_ ?_ ?_ ?_ ?_).2 <;> rfl
  | top =>
    rw [show (splitUpdates SnapSide.top tid did t dragged did).getD dragged =
        { dragged with
            isSnapped := true
            parent := some tid
            top := t.top
            left := t.left
            width := t.width
            height := t.height / 2 } from by simp [splitUpdates]] at hfD
    rw [show (splitUpdates SnapSide.top tid did t dragged tid).getD t =
        { t with top := t.top + t.height / 2, height := t.height / 2 } from by
      simp [splitUpdates, hne]] at hfT
    refine ⟨_, _, hfD, hfT, ⟨by ring, rfl, rfl, rfl⟩, ?_, ?_⟩
    · refine (winPts_split_v _ _ t ?_ ?_ ?_ ?_ ?_ ?_ ?_ ?_).1 <;> rfl
    · refine (winPts_split_v _ _ t ?_ ?_ ?_ ?_ ?_ ?_ ?_ ?_).2 <;> rfl
  | bottom =>
    rw [show (splitUpdates SnapSide.bottom tid did t dragged did).getD dragged =
        { dragged with
            isSnapped := true
            parent := some tid
            top := t.top + t.height / 2
            left := t.left
            width := t.width
            height := t.height / 2 } from by simp [splitUpdates]] at hfD
    rw [show (splitUpdates SnapSide.bottom tid did t dragged tid).getD t =
        { t with height := t.height / 2 } from by simp [splitUpdates, hne]] at hfT
    refine ⟨_, _, hfD, hfT, ⟨by ring, rfl, rfl, rfl⟩, ?_, ?_⟩
    · rw [Set.union_comm]
      refine (winPts_split_v _ _ t ?_ ?_ ?_ ?_ ?_ ?_ ?_ ?_).1 <;> rfl
    · rw [Set.inter_comm]
      refine (winPts_split_v _ _ t ?_ ?_ ?_ ?_ ?_ ?_ ?_ ?_).2 <;> rfl

/-- C2 witness: a concrete left-split drop of panel 1 onto panel 2
(`100x60` at the origin), producing the partition facts at that input. -/
theorem c2_partition_witness :
    (splitLeftState.snapIndicator.shown = true) ∧
    (splitLeftState.snapIndicator.side = some SnapSide.left) ∧
    (splitLeftState.snapIndicator.target = some 2) ∧
    (splitLeftState.draggedWindowId = some 1) ∧
    ((1 : Int) ≠ 0) ∧ ((2 : Int) ≠ 0) ∧ ((2 : Int) ≠ 1) ∧
    (splitLeftState.windows.find? (fun w => w.id == 1) =
      some ⟨1, "a", 0, 0, 300, 200, false, none⟩) ∧
    (splitLeftState.windows.find? (fun w => w.id == 2) =
      some ⟨2, "b", 0, 0, 100, 60, false, none⟩) ∧
    (∃ D T : WindowData,
      (handleDrop 1200 800 splitLeftState).windows.find? (fun w => w.id == 1) =
        some D ∧
      (handleDrop 1200 800 splitLeftState).windows.find? (fun w => w.id == 2) =
        some T ∧
      (D.width + T.width = (100 : ℚ) ∧ D.left + D.width = T.left ∧
       D.top = T.top ∧ D.height = T.height) ∧
      winPts D ∪ winPts T = winPts ⟨2, "b", 0, 0, 100, 60, false, none⟩ ∧
      winPts D ∩ winPts T = ∅) :=
  ⟨rfl, rfl, rfl, rfl, by decide, by decide, by decide, by decide, by decide,
   c2_partition 1200 800 SnapSide.left 2 1 splitLeftState
     ⟨2, "b", 0, 0, 100, 60, false, none⟩ ⟨1, "a", 0, 0, 300, 200, false, none⟩
     rfl rfl rfl rfl (by decide) (by decide) (by decide) (by decide) (by decide)⟩

end WindowTiler

namespace WindowTiler

/-- C9 counterexample: an active decision whose `target` is the id `0`
refers to no panel, yet `handleDrop` does not leave the list unchanged:
`if (target)` treats `0` as falsy, so the full-screen branch runs and
the dragged panel's width becomes `600` (half of 1200) instead of
staying `300`. -/
theorem c9_counterexample :
    (zeroTargetState.windows.find? (fun w => w.id == 0) = none) ∧
    zeroTargetState.windows.map (fun w => w.width) = [300] ∧
    (handleDrop 1200 800 zeroTargetState).windows.map (fun w => w.width) = [600] := by
  refine ⟨by decide, by decide, ?_⟩
  norm_num [handleDrop, dropWindows, zeroTargetState, targetTruthy, snapMap,
    EMPTY_INDICATOR, List.find?]

/-- C9 (amended): for an active decision whose target id is nonzero and
refers to no panel in the list (e.g. the target was closed mid-drag),
`handleDrop` leaves the panel list entirely unchanged while clearing the
drag state and the snap preview. (A target id of `0` is instead treated
as absent by the source's `if (target)` truthiness test and triggers a
full-screen snap.) -/
theorem c9_dangling_target (iw ih : ℚ) (st : AppState) (d tid : Int)
    (hshow : st.snapIndicator.shown = true)
    (hdrag : st.draggedWindowId = some d) (hd0 : d ≠ 0)
    (htarget : st.snapIndicator.target = some tid) (ht0 : tid ≠ 0)
    (hmiss : st.windows.find? (fun w => w.id == tid) = none) :
    (handleDrop iw ih st).windows = st.windows ∧
    (handleDrop iw ih st).draggedWindowId = none ∧
    (handleDrop iw ih st).dragStartPos = none ∧
    (handleDrop iw ih st).snapIndicator = EMPTY_INDICATOR := by
  have hdrop : handleDrop iw ih st =
      { windows := dropWindows d st.snapIndicator.side st.snapIndicator.target
          iw ih st.windows,
        snapIndicator := EMPTY_INDICATOR,
        draggedWindowId := none,
        dragStartPos := none } := by
    unfold handleDrop
    rw [if_neg (by simp [hshow, hdrag, targetTruthy, hd0])]
    rw [hdrag]
  have hwin : dropWindows d st.snapIndicator.side st.snapIndicator.target
      iw ih st.windows = st.windows := by
    unfold dropWindows
    cases hfd : st.windows.find? (fun w => w.id == d) with
    | none => rfl
    | some dragged =>
      simp only []
      cases hside : st.snapIndicator.side with
      | none => rfl
      | some s =>
        simp only []
        rw [htarget]
        rw [if_pos (by simp [targetTruthy, ht0])]
        simp only []
        rw [hmiss]
  rw [hdrop]
  exact ⟨hwin, rfl, rfl, rfl⟩

/-- C9 witness: a concrete state whose decision targets the missing id
99; dropping leaves the single panel untouched and clears the session. -/
theorem c9_dangling_target_witness :
    (danglingTargetState.snapIndicator.shown = true) ∧
    (danglingTargetState.draggedWindowId = some 1) ∧
    ((1 : Int) ≠ 0) ∧
    (danglingTargetState.snapIndicator.target = some 99) ∧
    ((99 : Int) ≠ 0) ∧
    (danglingTargetState.windows.find? (fun w => w.id == 99) = none) ∧
    ((handleDrop 1200 800 danglingTargetState).windows =
        danglingTargetState.windows ∧
     (handleDrop 1200 800 danglingTargetState).draggedWindowId = none ∧
     (handleDrop 1200 800 danglingTargetState).dragStartPos = none ∧
     (handleDrop 1200 800 danglingTargetState).snapIndicator = EMPTY_INDICATOR) :=
  ⟨rfl, rfl, by decide, rfl, by decide, by decide,
   c9_dangling_target 1200 800 danglingTargetState 1 99
     rfl rfl (by decide) rfl (by decide) (by decide)⟩

end WindowTiler

namespace WindowTiler

lemma unsnap_snapped (did pid : Int) (l : List WindowData) (win sibling : WindowData)
    (hw : l.find? (fun w => w.id == did) = some win)
    (hsnap : win.isSnapped = true) (hpar : win.parent = some pid) (hp0 : pid ≠ 0)
    (hs : l.find? (fun w => w.id == pid) = some sibling) :
    unsnapWindow did l = l.map (fun w =>
      if w.id == sibling.id then
        { sibling with
            width := sibling.width + win.width
            height := sibling.height + win.height
            isSnapped := false
            parent := none }
      else if w.id == did then { w with isSnapped := false, parent := none }
      else w) := by
  unfold unsnapWindow
  rw [hw]
  simp only []
  rw [if_neg (by simp [hsnap, hpar, parentFalsy, hp0])]
  rw [hpar]
  simp only []
  rw [hs]

lemma find_after_unsnap_sibling {did pid : Int} {l : List WindowData}
    {win sibling : WindowData}
    (hw : l.find? (fun w => w.id == did) = some win)
    (hsnap : win.isSnapped = true) (hpar : win.parent = some pid) (hp0 : pid ≠ 0)
    (hs : l.find? (fun w => w.id == pid) = some sibling) :
    (unsnapWindow did l).find? (fun w => w.id == pid) =
      some { sibling with
              width := sibling.width + win.width
              height := sibling.height + win.height
              isSnapped := false
              parent := none } := by
  rw [unsnap_snapped did pid l win sibling hw hsnap hpar hp0 hs]
  have hg : ∀ w : WindowData,
      ((if w.id == sibling.id then
          { sibling with
              width := sibling.width + win.width
              height := sibling.height + win.height
              isSnapped := false
              parent := none }
        else if w.id == did then { w with isSnapped := false, parent := none }
        else w) : WindowData).id = w.id := by
    intro w
    by_cases h1 : w.id = sibling.id
    · simp [h1]
    · by_cases h2 : w.id = did
      · have h3 : ¬did = sibling.id := fun hh => h1 (h2.trans hh)
        simp [h1, h2, h3]
      · simp [h1, h2]
  rw [find_map_idpres _ hg pid l, hs]
  simp

/-- C1 counterexample: drop panel 1 onto panel 2 (`100x50` at the
origin) as a right split, then immediately unsnap panel 1. The claim
says panel 2's geometry returns to `(0, 0, 100, 50)`; in fact
`unsnapWindow` adds back panel 1's width *and* height, so panel 2 ends
at `(0, 0, 100, 100)` — its height doubles instead of being restored. -/
theorem c1_counterexample :
    ((splitRightState.windows.find? (fun w => w.id == 2)).map
        (fun w => (w.top, w.left, w.width, w.height)) = some (0, 0, 100, 50)) ∧
    (((unsnapWindow 1 (handleDrop 1200 800 splitRightState).windows).find?
        (fun w => w.id == 2)).map (fun w => (w.top, w.left, w.width, w.height)) =
      some (0, 0, 100, 100)) ∧
    some (((0 : ℚ), (0 : ℚ), (100 : ℚ), (100 : ℚ))) ≠
      some (((0 : ℚ), (0 : ℚ), (100 : ℚ), (50 : ℚ))) := by
  refine ⟨by decide, ?_, by decide⟩
  norm_num [handleDrop, dropWindows, splitUpdates, targetTruthy, unsnapWindow,
    parentFalsy, splitRightState, EMPTY_INDICATOR, List.find?]
  exact ⟨_, rfl, rfl, rfl, rfl, rfl⟩

/-- C1 (amended): after a successful target-split drop of `dragged` onto
`t` and an immediate `unsnapWindow` of the dragged panel with no other
mutation in between, the sibling's flags are cleared but its geometry is
*not* restored to the pre-split values: `unsnapWindow` adds the dragged
panel's width and height back unconditionally, so only the split-axis
extent is restored (width for left/right, height for top/bottom), the
other extent doubles, and the position moved by the split (left for a
left split, top for a top split) stays moved. -/
theorem c1_heuristic_unsnap (iw ih : ℚ) (s : SnapSide) (tid did : Int)
    (st : AppState) (t dragged : WindowData)
    (hshow : st.snapIndicator.shown = true)
    (hside : st.snapIndicator.side = some s)
    (htarget : st.snapIndicator.target = some tid)
    (hdrag : st.draggedWindowId = some did)
    (hd0 : did ≠ 0) (ht0 : tid ≠ 0) (hne : tid ≠ did)
    (hfd : st.windows.find? (fun w => w.id == did) = some dragged)
    (hft : st.windows.find? (fun w => w.id == tid) = some t) :
    ∃ T : WindowData,
      (unsnapWindow did (handleDrop iw ih st).windows).find?
          (fun w => w.id == tid) = some T ∧
      T.isSnapped = false ∧ T.parent = none ∧
      (match s with
       | SnapSide.left => T.top = t.top ∧ T.left = t.left + t.width / 2 ∧
           T.width = t.width ∧ T.height = 2 * t.height
       | SnapSide.right => T.top = t.top ∧ T.left = t.left ∧
           T.width = t.width ∧ T.height = 2 * t.height
       | SnapSide.top => T.top = t.top + t.height / 2 ∧ T.left = t.left ∧
           T.width = 2 * t.width ∧ T.height = t.height
       | SnapSide.bottom => T.top = t.top ∧ T.left = t.left ∧
           T.width = 2 * t.width ∧ T.height = t.height) := by
  have hdid := find_id_eq hfd
  have htid := find_id_eq hft
  have hwindows := handleDrop_split_windows iw ih s tid did st t dragged
    hshow hside htarget hdrag hd0 ht0 hfd hft
  have hfD := find_after_split_dragged hwindows hfd hdid htid
  have hfT := find_after_split_target hwindows hft hdid htid
  cases s with
  | left =>
    rw [show (splitUpdates SnapSide.left tid did t dragged did).getD dragged =
        { dragged with
            isSnapped := true
            parent := some tid
            top := t.top
            left := t.left
            width := t.width / 2
            height := t.height } from by simp [splitUpdates]] at hfD
    rw [show (splitUpdates SnapSide.left tid did t dragged tid).getD t =
        { t with left := t.left + t.width / 2, width := t.width / 2 } from by
      simp [splitUpdates, hne]] at hfT
    exact ⟨_, find_after_unsnap_sibling hfD rfl rfl ht0 hfT, rfl, rfl,
      rfl, rfl, by ring, by ring⟩
  | right =>
    rw [show (splitUpdates SnapSide.right tid did t dragged did).getD dragged =
        { dragged with
            isSnapped := true
            parent := some tid
            top := t.top
            left := t.left + t.width / 2
            width := t.width / 2
            height := t.height } from by simp [splitUpdates]] at hfD
    rw [show (splitUpdates SnapSide.right tid did t dragged tid).getD t =
        { t with width := t.width / 2 } from by simp [splitUpdates, hne]] at hfT
    exact ⟨_, find_after_unsnap_sibling hfD rfl rfl ht0 hfT, rfl, rfl,
      rfl, rfl, by ring, by ring⟩
  | top =>
    rw [show (splitUpdates SnapSide.top tid did t dragged did).getD dragged =
        { dragged with
            isSnapped := true
            parent := some tid
            top := t.top
            left := t.left
            width := t.width
            height := t.height / 2 } from by simp [splitUpdates]] at hfD
    rw [show (splitUpdates SnapSide.top tid did t dragged tid).getD t =
        { t with top := t.top + t.height / 2, height := t.height / 2 } from by
      simp [splitUpdates, hne]] at hfT
    exact ⟨_, find_after_unsnap_sibling hfD rfl rfl ht0 hfT, rfl, rfl,
      rfl, rfl, by ring, by ring⟩
  | bottom =>
    rw [show (splitUpdates SnapSide.bottom tid did t dragged did).getD dragged =
        { dragged with
            isSnapped := true
            parent := some tid
            top := t.top + t.height / 2
            left := t.left
            width := t.width
            height := t.height / 2 } from by simp [splitUpdates]] at hfD
    rw [show (splitUpdates SnapSide.bottom tid did t dragged tid).getD t =
        { t with height := t.height / 2 } from by simp [splitUpdates, hne]] at hfT
    exact ⟨_, find_after_unsnap_sibling hfD rfl rfl ht0 hfT, rfl, rfl,
      rfl, rfl, by ring, by ring⟩

/-- C1 witness: the concrete right split of the counterexample; the
amended statement yields panel 2 at its original top, left and width but
twice its original height. -/
theorem c1_heuristic_unsnap_witness :
    (splitRightState.snapIndicator.shown = true) ∧
    (splitRightState.snapIndicator.side = some SnapSide.right) ∧
    (splitRightState.snapIndicator.target = some 2) ∧
    (splitRightState.draggedWindowId = some 1) ∧
    ((1 : Int) ≠ 0) ∧ ((2 : Int) ≠ 0) ∧ ((2 : Int) ≠ 1) ∧
    (splitRightState.windows.find? (fun w => w.id == 1) =
      some ⟨1, "a", 0, 0, 300, 200, false, none⟩) ∧
    (splitRightState.windows.find? (fun w => w.id == 2) =
      some ⟨2, "b", 0, 0, 100, 50, false, none⟩) ∧
    (∃ T : WindowData,
      (unsnapWindow 1 (handleDrop 1200 800 splitRightState).windows).find?
          (fun w => w.id == 2) = some T ∧
      T.isSnapped = false ∧ T.parent = none ∧
      (T.top = (0 : ℚ) ∧ T.left = (0 : ℚ) ∧ T.width = (100 : ℚ) ∧
       T.height = 2 * (50 : ℚ))) :=
  ⟨rfl, rfl, rfl, rfl, by decide, by decide, by decide, by decide, by decide,
   c1_heuristic_unsnap 1200 800 SnapSide.right 2 1 splitRightState
     ⟨2, "b", 0, 0, 100, 50, false, none⟩ ⟨1, "a", 0, 0, 300, 200, false, none⟩
     rfl rfl rfl rfl (by decide) (by decide) (by decide) (by decide) (by decide)⟩

end WindowTiler

namespace WindowTiler

/-- C7 witness: dragged panel 7 (no other panel in the list), pointer
`(5, 400)` on a `1200x800` viewport: the decision is `left` with no
target, and dropping yields geometry `(0, 0, 600, 800)`, snapped, with
no parent. -/
theorem c7_full_screen_snap_witness :
    ((7 : Int) ≠ 0) ∧
    ((⟨[⟨7, "a", 40, 40, 300, 200, false, none⟩],
        resolveIndicator 7 5 400 [⟨7, "a", 40, 40, 300, 200, false, none⟩] 1200 800,
        some 7, some ⟨5, 400⟩⟩ : AppState).windows.find? (fun w => w.id == 7) =
      some ⟨7, "a", 40, 40, 300, 200, false, none⟩) ∧
    ((resolveIndicator 7 5 400 [⟨7, "a", 40, 40, 300, 200, false, none⟩]
        1200 800).shown = true ∧
     (resolveIndicator 7 5 400 [⟨7, "a", 40, 40, 300, 200, false, none⟩]
        1200 800).side = some SnapSide.left ∧
     (resolveIndicator 7 5 400 [⟨7, "a", 40, 40, 300, 200, false, none⟩]
        1200 800).target = none ∧
     (handleDrop 1200 800
        (⟨[⟨7, "a", 40, 40, 300, 200, false, none⟩],
          resolveIndicator 7 5 400 [⟨7, "a", 40, 40, 300, 200, false, none⟩] 1200 800,
          some 7, some ⟨5, 400⟩⟩ : AppState)).windows.find? (fun w => w.id == 7) =
       some ⟨7, "a", 0, 0, 600, 800, true, none⟩) :=
  ⟨by decide, by decide,
   c7_full_screen_snap 7 [⟨7, "a", 40, 40, 300, 200, false, none⟩]
     (⟨[⟨7, "a", 40, 40, 300, 200, false, none⟩],
       resolveIndicator 7 5 400 [⟨7, "a", 40, 40, 300, 200, false, none⟩] 1200 800,
       some 7, some ⟨5, 400⟩⟩ : AppState)
     ⟨7, "a", 40, 40, 300, 200, false, none⟩
     (by
       intro w hw hne
       simp only [List.mem_singleton] at hw
       subst hw
       simp at hne)
     rfl rfl (by decide) (by decide)⟩

end WindowTiler
